import Mathlib

/-!
Shallow embedding of `ubuntu_config_service.py` (BellNews2025): the
host-configuration orchestrator.  Shell commands are modelled as lists of
argument strings; the observable behaviour of the surrounding environment
(what `run_command` reports for each command) is an oracle `Exec`; side
effects (commands issued, files written) are collected in an event trace.
All character-level string processing is done on `List Char` with
structural recursion so that every definition evaluates in the kernel.
-/

namespace BellNews

/-- A shell command: the command name followed by its arguments. -/
abbrev Cmd := List String

/-- Oracle giving, for each command, the `(success, output)` pair that
`run_command` reports for it in the current environment. -/
abbrev Exec := Cmd → Bool × String

/-- Python truthiness of an optional string field from the JSON body:
`None` and the empty string are falsy. -/
def truthy : Option String → Bool
  | none => false
  | some s => s != ""

/-- `str(x)` for an optional field: Python renders `None` as `"None"`. -/
def pyStr : Option String → String
  | none => "None"
  | some s => s

/-- Extract the string of a field known to be present (defaulting to ""). -/
def pyGet (o : Option String) : String := o.getD ""

/-! ### Character-list helpers -/

/-- Decimal value of the digit list (digits assumed already checked). -/
def digitsToNat (l : List Char) : Nat :=
  l.foldl (fun a c => a * 10 + (c.toNat - 48)) 0

/-- All characters are ASCII decimal digits and the list is nonempty. -/
def allDigits (l : List Char) : Bool :=
  decide (l ≠ []) && l.all (fun c => '0' ≤ c && c ≤ '9')

/-- Split a character list on a separator character (like `str.split(sep)`:
always at least one field, empty fields preserved). -/
def splitOnChar (sep : Char) : List Char → List (List Char)
  | [] => [[]]
  | c :: cs =>
    if c = sep then [] :: splitOnChar sep cs
    else match splitOnChar sep cs with
      | [] => [[c]]
      | h :: t => (c :: h) :: t

/-- `a` is an initial segment of `b`. -/
def leadsWith : List Char → List Char → Bool
  | [], _ => true
  | _ :: _, [] => false
  | x :: xs, y :: ys => x = y && leadsWith xs ys

/-- `needle` occurs contiguously somewhere in `hay`. -/
def occursIn (needle : List Char) : List Char → Bool
  | [] => decide (needle = [])
  | c :: cs => leadsWith needle (c :: cs) || occursIn needle cs

/-- Substring test on strings (Python's `in` operator on `str`). -/
def containsStr (hay needle : String) : Bool :=
  occursIn needle.data hay.data

/-! ### subnet_mask_to_cidr (ubuntu_config_service.py lines 105-115)

`ipaddress.IPv4Network(f'0.0.0.0/{subnet_mask}', strict=False).prefixlen`:
the mask string is either a decimal prefix length (all digits, value ≤ 32),
or a dotted quad that is a valid netmask (ones then zeros) or hostmask
(zeros then ones).  Anything else raises, which the function catches and
turns into `None`. -/

/-- One dotted-quad octet: 1-3 ASCII digits, no leading zero, value ≤ 255
(the checks `ipaddress` performs on each part). -/
def parseOctet (l : List Char) : Option Nat :=
  if l.length = 0 ∨ 3 < l.length then none
  else if ¬ allDigits l then none
  else if 1 < l.length ∧ l.head? = some '0' then none
  else if digitsToNat l ≤ 255 then some (digitsToNat l) else none

/-- Parse a dotted-quad IPv4 string into its 32-bit value. -/
def parseIPv4 (s : String) : Option Nat :=
  match splitOnChar '.' s.data with
  | [a, b, c, d] =>
    match parseOctet a, parseOctet b, parseOctet c, parseOctet d with
    | some a, some b, some c, some d => some (((a * 256 + b) * 256 + c) * 256 + d)
    | _, _, _, _ => none
  | _ => none

/-- Prefix length of a 32-bit value that is a netmask (k ones then zeros). -/
def netmaskCidr (v : Nat) : Option Nat :=
  (List.range 33).find? (fun k => v = 2 ^ 32 - 2 ^ (32 - k))

/-- Prefix length of a 32-bit value that is a hostmask (zeros then ones). -/
def hostmaskCidr (v : Nat) : Option Nat :=
  (List.range 33).find? (fun k => v = 2 ^ (32 - k) - 1)

/-- `subnet_mask_to_cidr`: convert a subnet mask string to its CIDR prefix
length, or `none` when the mask is unparsable (the Python function catches
the exception and returns `None`). -/
def subnet_mask_to_cidr (m : String) : Option Nat :=
  if allDigits m.data then
    if digitsToNat m.data ≤ 32 then some (digitsToNat m.data) else none
  else
    match parseIPv4 m with
    | none => none
    | some v =>
      match netmaskCidr v with
      | some k => some k
      | none => hostmaskCidr v

/-! ### datetime.strptime(s, "%Y-%m-%d %H:%M") (used at lines 256 and 540)

CPython's `_strptime` compiles the format into a regex: `%Y` is exactly
four digits, `%m` is `1[0-2]|0[1-9]|[1-9]`, `%d` is
`3[01]|[12]\d|0[1-9]|[1-9]`, `%H` is `2[0-3]|[0-1]\d|\d`, `%M` is
`[0-5]\d|\d`, a literal space matches one or more whitespace characters,
and the whole input must be consumed.  The resulting fields are then fed
to `datetime(...)`, which additionally checks the day against the length
of the month.  Each two-digit alternative is followed in the format by a
non-digit literal (or the end), so the greedy first-alternative match
below is equivalent to the regex with backtracking. -/

/-- Numeric value of an ASCII digit character. -/
def digitVal (c : Char) : Nat := c.toNat - 48

/-- `%m`: month field of the strptime regex. -/
def matchMonth : List Char → Option (Nat × List Char)
  | [] => none
  | c1 :: rest =>
    if c1 = '1' then
      match rest with
      | c2 :: rest2 =>
        if '0' ≤ c2 ∧ c2 ≤ '2' then some (10 + digitVal c2, rest2) else some (1, rest)
      | [] => some (1, [])
    else if c1 = '0' then
      match rest with
      | c2 :: rest2 =>
        if '1' ≤ c2 ∧ c2 ≤ '9' then some (digitVal c2, rest2) else none
      | [] => none
    else if '2' ≤ c1 ∧ c1 ≤ '9' then some (digitVal c1, rest)
    else none

/-- `%d`: day field of the strptime regex. -/
def matchDay : List Char → Option (Nat × List Char)
  | [] => none
  | c1 :: rest =>
    if c1 = '3' then
      match rest with
      | c2 :: rest2 =>
        if c2 = '0' ∨ c2 = '1' then some (30 + digitVal c2, rest2) else some (3, rest)
      | [] => some (3, [])
    else if c1 = '1' ∨ c1 = '2' then
      match rest with
      | c2 :: rest2 =>
        if c2.isDigit then some (digitVal c1 * 10 + digitVal c2, rest2)
        else some (digitVal c1, rest)
      | [] => some (digitVal c1, [])
    else if c1 = '0' then
      match rest with
      | c2 :: rest2 =>
        if '1' ≤ c2 ∧ c2 ≤ '9' then some (digitVal c2, rest2) else none
      | [] => none
    else if '4' ≤ c1 ∧ c1 ≤ '9' then some (digitVal c1, rest)
    else none

/-- `%H`: hour field of the strptime regex. -/
def matchHour : List Char → Option (Nat × List Char)
  | [] => none
  | c1 :: rest =>
    if c1 = '2' then
      match rest with
      | c2 :: rest2 =>
        if '0' ≤ c2 ∧ c2 ≤ '3' then some (20 + digitVal c2, rest2) else some (2, rest)
      | [] => some (2, [])
    else if c1 = '0' ∨ c1 = '1' then
      match rest with
      | c2 :: rest2 =>
        if c2.isDigit then some (digitVal c1 * 10 + digitVal c2, rest2)
        else some (digitVal c1, rest)
      | [] => some (digitVal c1, [])
    else if c1.isDigit then some (digitVal c1, rest)
    else none

/-- `%M`: minute field of the strptime regex. -/
def matchMinute : List Char → Option (Nat × List Char)
  | [] => none
  | c1 :: rest =>
    if '0' ≤ c1 ∧ c1 ≤ '5' then
      match rest with
      | c2 :: rest2 =>
        if c2.isDigit then some (digitVal c1 * 10 + digitVal c2, rest2)
        else some (digitVal c1, rest)
      | [] => some (digitVal c1, [])
    else if c1.isDigit then some (digitVal c1, rest)
    else none

/-- Python regex `\s` (ASCII): space, tab, newline, CR, FF, VT. -/
def isPyWs (c : Char) : Bool :=
  c = ' ' ∨ c = '\t' ∨ c = '\n' ∨ c = '\x0d' ∨ c = '\x0c' ∨ c = '\x0b'

/-- Drop leading whitespace characters. -/
def skipWs : List Char → List Char
  | [] => []
  | c :: cs => if isPyWs c then skipWs cs else c :: cs

/-- `\s+`: consume at least one whitespace character (greedily; the next
format token is a digit, so greediness agrees with the regex). -/
def skipWs1 : List Char → Option (List Char)
  | [] => none
  | c :: cs => if isPyWs c then some (skipWs cs) else none

/-- Full `"%Y-%m-%d %H:%M"` regex match over the whole input, returning
`(year, month, day, hour, minute)`. -/
def parseYmdHm (l : List Char) : Option (Nat × Nat × Nat × Nat × Nat) :=
  match l with
  | y1 :: y2 :: y3 :: y4 :: rest =>
    if y1.isDigit ∧ y2.isDigit ∧ y3.isDigit ∧ y4.isDigit then
      let y := digitsToNat [y1, y2, y3, y4]
      match rest with
      | '-' :: r1 =>
        match matchMonth r1 with
        | some (m, r2) =>
          match r2 with
          | '-' :: r3 =>
            match matchDay r3 with
            | some (d, r4) =>
              match skipWs1 r4 with
              | some r5 =>
                match matchHour r5 with
                | some (h, r6) =>
                  match r6 with
                  | ':' :: r7 =>
                    match matchMinute r7 with
                    | some (mi, r8) =>
                      if r8 = [] then some (y, m, d, h, mi) else none
                    | none => none
                  | _ => none
                | none => none
              | none => none
            | none => none
          | _ => none
        | none => none
      | _ => none
    else none
  | _ => none

/-- Gregorian leap year (as `datetime` uses). -/
def isLeap (y : Nat) : Bool := y % 4 = 0 ∧ (y % 100 ≠ 0 ∨ y % 400 = 0)

/-- Days in a month (as `datetime` uses). -/
def daysInMonth (y m : Nat) : Nat :=
  if m = 2 then (if isLeap y then 29 else 28)
  else if m = 4 ∨ m = 6 ∨ m = 9 ∨ m = 11 then 30
  else 31

/-- `datetime.strptime(s, "%Y-%m-%d %H:%M")` succeeds: the regex matches
and the fields form a valid `datetime` (year ≥ 1, day within month). -/
def strptimeValid (s : String) : Bool :=
  match parseYmdHm s.data with
  | some (y, m, d, _, _) => 1 ≤ y ∧ d ≤ daysInMonth y m
  | none => false

/-! ### _get_ubuntu_version (lines 118-129) -/

/-- The fixed legacy version tag searched for in `/etc/os-release`. -/
def legacyTag : String := "VERSION_ID=\"16.04\""

/-- The bionic version tag. -/
def bionicTag : String := "VERSION_ID=\"18.04\""

/-- `_get_ubuntu_version`: classify the `/etc/os-release` content
(`none` models a read failure, turned into "modern" by the bare except). -/
def _get_ubuntu_version : Option String → String
  | none => "modern"
  | some content =>
    if containsStr content legacyTag then "16.04"
    else if containsStr content bionicTag then "18.04"
    else "modern"

/-! ### _get_network_interface_name (lines 285-309) -/

/-- An interface name the scan treats as wired (`startswith('eth')` or
`startswith('enp')`). -/
def isWired (s : String) : Bool :=
  leadsWith "eth".data s.data || leadsWith "enp".data s.data

/-- `_get_network_interface_name`: first wired interface in scan order,
else the first interface, else `none`; `none` input models a failed scan
of `/sys/class/net`. -/
def _get_network_interface_name : Option (List String) → Option String
  | none => none
  | some l =>
    match l.find? isWired with
    | some i => some i
    | none => l.head?

/-! ### run_command (lines 45-102): mock mode

`run_command` strips a leading `sudo`, and in Docker test mode synthesizes
a successful outcome for the fixed allow-list of command names, with a
special message for `dhclient -r`; every other command is executed for
real.  The real execution (subprocess plus its error-message rewriting) is
abstracted as the oracle `realExec` giving the final observable
`(success, output)` pair. -/

/-- Strip a leading `sudo` token (lines 61-63). -/
def stripSudo : Cmd → Cmd
  | "sudo" :: rest => rest
  | c => c

/-- The fixed allow-list of mocked command names (line 68). -/
def mockAllowList : List String :=
  ["timedatectl", "netplan", "dhclient", "systemctl", "pkill"]

/-- The generic mock message (line 69). -/
def mockMsg (c : Cmd) : String :=
  "Mocked: " ++ String.intercalate " " c ++
    " - This command would normally run on a full Ubuntu OS."

/-- Outcome of `run_command` together with whether the real subprocess was
invoked. -/
structure RunOutcome where
  success : Bool
  output : String
  ranReal : Bool
deriving DecidableEq, Repr

/-- `run_command` (the mock-mode dispatch of lines 56-79). -/
def run_command (mockMode : Bool) (realExec : Exec) (cmd0 : Cmd) : RunOutcome :=
  let c := stripSudo cmd0
  match c with
  | [] =>
    let r := realExec c
    ⟨r.1, r.2, true⟩
  | name :: rest =>
    if mockMode && mockAllowList.contains name then
      if name = "dhclient" && (name :: rest).contains "-r" then
        ⟨true, "Mocked: DHCP release successful.", false⟩
      else
        ⟨true, mockMsg (name :: rest), false⟩
    else
      let r := realExec (name :: rest)
      ⟨r.1, r.2, true⟩

/-! ### Data model: intents, responses, events -/

/-- The JSON body of `/apply_network_settings` (fields may be absent). -/
structure NetworkIntent where
  ipType : Option String
  ipAddress : Option String
  subnetMask : Option String
  gateway : Option String
  dnsServer : Option String
deriving DecidableEq, Repr

/-- The JSON body of `/apply_time_settings` (fields may be absent). -/
structure TimeIntent where
  timeType : Option String
  ntpServer : Option String
  manualDate : Option String
  manualTime : Option String
deriving DecidableEq, Repr

/-- A netplan default route entry (`{'to': 'default', 'via': gateway}`). -/
structure NetplanRoute where
  «to» : String
  via : String
deriving DecidableEq, Repr

/-- The per-interface ethernet section of the generated netplan document. -/
structure EthConfig where
  dhcp4 : Option Bool
  addresses : Option (List String)
  routes : Option (List NetplanRoute)
  nameservers : Option (List String)
deriving DecidableEq, Repr

/-- The netplan document built by `_generate_netplan_yaml`:
`network.version = 2`, a renderer, and one ethernet keyed by interface. -/
structure NetplanDoc where
  version : Nat
  renderer : String
  iface : String
  eth : EthConfig
deriving DecidableEq, Repr

/-- An HTTP response: Flask's `jsonify({"status":…, "message":…}), code`. -/
structure HttpResponse where
  status : String
  message : String
  code : Nat
deriving DecidableEq, Repr

/-- 200 success response. -/
def ok200 (m : String) : HttpResponse := ⟨"success", m, 200⟩

/-- 400 client-error response. -/
def err400 (m : String) : HttpResponse := ⟨"error", m, 400⟩

/-- 500 server-fault response. -/
def err500 (m : String) : HttpResponse := ⟨"error", m, 500⟩

/-- An observable side effect: a command handed to `run_command`, or a
file written with Python `open(..., 'w')`. -/
inductive Event where
  | run (c : Cmd)
  | writeNetplan (d : NetplanDoc)
  | writeInterfaces (content : String)
  | writeNtpConf (content : String)
deriving DecidableEq, Repr

/-- Decidable equality for `Except` (not provided by the library). -/
def exceptDecEq {ε α : Type} [DecidableEq ε] [DecidableEq α] :
    (a b : Except ε α) → Decidable (a = b)
  | .error a, .error b =>
    if h : a = b then .isTrue (by rw [h])
    else .isFalse (by intro hh; cases hh; exact h rfl)
  | .error _, .ok _ => .isFalse (by intro h; cases h)
  | .ok _, .error _ => .isFalse (by intro h; cases h)
  | .ok a, .ok b =>
    if h : a = b then .isTrue (by rw [h])
    else .isFalse (by intro hh; cases hh; exact h rfl)

instance {ε α : Type} [DecidableEq ε] [DecidableEq α] : DecidableEq (Except ε α) :=
  exceptDecEq

/-! ### _generate_netplan_yaml (lines 311-352) -/

/-- `_generate_netplan_yaml`: build the netplan document from the intent,
raising `ValueError` (modelled as `Except.error`) on a falsy interface
name, missing static fields, unconvertible mask, or invalid ipType. -/
def _generate_netplan_yaml (ipType ipAddress subnetMask gateway dnsServer : Option String)
    (iface : String) : Except String NetplanDoc :=
  if iface = "" then
    .error "Network interface name is required to generate Netplan configuration."
  else if ipType = some "dynamic" then
    .ok ⟨2, "networkd", iface, ⟨some true, none, none, none⟩⟩
  else if ipType = some "static" then
    if ¬ (truthy ipAddress ∧ truthy subnetMask ∧ truthy gateway) then
      .error "For static IP, ipAddress, subnetMask, and gateway are required."
    else
      match subnet_mask_to_cidr (pyGet subnetMask) with
      | none => .error "Invalid subnet mask provided for CIDR conversion."
      | some cidr =>
        .ok ⟨2, "networkd", iface,
          ⟨some false,
           some [pyGet ipAddress ++ "/" ++ toString cidr],
           some [⟨"default", pyGet gateway⟩],
           if truthy dnsServer then some [pyGet dnsServer] else none⟩⟩
  else
    .error ("Invalid ipType: " ++ pyStr ipType ++ ". Must be 'dynamic' or 'static'.")

/-- `_write_and_apply_netplan` (lines 354-376): write the document, then
run `netplan apply`; an apply failure is caught and reported. -/
def _write_and_apply_netplan (rc : Exec) (doc : NetplanDoc) :
    (Bool × String) × List Event :=
  let ev := [Event.writeNetplan doc, Event.run ["netplan", "apply"]]
  let r := rc ["netplan", "apply"]
  if r.1 then ((true, "Netplan configuration applied successfully."), ev)
  else ((false, "Error applying network settings: Failed to apply Netplan configuration: " ++ r.2), ev)

/-! ### _configure_legacy_network_ubuntu16 (lines 131-196) -/

/-- Path of the legacy interface file. -/
def interfacesFile : String := "/etc/network/interfaces"

/-- Path of its backup. -/
def backupFile : String := "/etc/network/interfaces.backup"

/-- A `cp src dst` command. -/
def cpCmd (src dst : String) : Cmd := ["cp", src, dst]

/-- The legacy configuration files this function touches: the interfaces
file content and the backup file content (absent if never created). -/
structure LegacyFS where
  interfaces : String
  backup : Option String
deriving DecidableEq, Repr

/-- Outcome of the legacy network configurator. -/
structure LegacyNetResult where
  success : Bool
  message : String
  events : List Event
  fs : LegacyFS
deriving DecidableEq, Repr

/-- The rendered dynamic (DHCP) interfaces template (lines 137-142). -/
def dhcpInterfacesConfig (iface : String) : String :=
  "auto lo\niface lo inet loopback\n\nauto " ++ iface ++
    "\niface " ++ iface ++ " inet dhcp\n"

/-- The rendered static interfaces template (lines 147-157), with the
nameserver defaulting to 8.8.8.8 when unspecified. -/
def staticInterfacesConfig (iface addr mask gw : String) (dns : Option String) : String :=
  let dnsLine := if truthy dns then "    dns-nameservers " ++ pyGet dns
                 else "    dns-nameservers 8.8.8.8"
  "auto lo\niface lo inet loopback\n\nauto " ++ iface ++
    "\niface " ++ iface ++ " inet static\n    address " ++ addr ++
    "\n    netmask " ++ mask ++ "\n    gateway " ++ gw ++ "\n" ++ dnsLine ++ "\n"

/-- The `except` handler of lines 189-196: attempt to restore the backup
over the interfaces file (a copy only happens if the cp succeeds and the
backup file exists), and report failure. -/
def legacyNetFail (rc : Exec) (fs : LegacyFS) (ev : List Event) (e : String) :
    LegacyNetResult :=
  let c := cpCmd backupFile interfacesFile
  let r := rc c
  let fs1 :=
    if r.1 then
      match fs.backup with
      | some b => { fs with interfaces := b }
      | none => fs
    else fs
  ⟨false, "Error applying network settings: " ++ e, ev ++ [Event.run c], fs1⟩

/-- `_configure_legacy_network_ubuntu16`: render the template, back up and
overwrite `/etc/network/interfaces`, release the DHCP lease for static
mode, restart networking with an ifdown/ifup fallback, and restore the
backup on failure. -/
def _configure_legacy_network_ubuntu16 (rc : Exec) (fs0 : LegacyFS)
    (ipType ipAddress subnetMask gateway dnsServer : Option String)
    (iface : String) : LegacyNetResult :=
  let cfg? : Except String String :=
    if ipType = some "dynamic" then .ok (dhcpInterfacesConfig iface)
    else if ipType = some "static" then
      if ¬ (truthy ipAddress ∧ truthy subnetMask ∧ truthy gateway) then
        .error "For static IP, ipAddress, subnetMask, and gateway are required."
      else .ok (staticInterfacesConfig iface (pyGet ipAddress) (pyGet subnetMask)
                  (pyGet gateway) dnsServer)
    else .error ("Invalid ipType: " ++ pyStr ipType ++ ". Must be 'dynamic' or 'static'.")
  match cfg? with
  | .error e => legacyNetFail rc fs0 [] e
  | .ok cfg =>
    -- Backup existing file (line 162); the copy happens only if cp succeeds.
    let rB := rc (cpCmd interfacesFile backupFile)
    let fs1 := if rB.1 then { fs0 with backup := some fs0.interfaces } else fs0
    let ev1 := [Event.run (cpCmd interfacesFile backupFile)]
    -- Write new configuration (lines 165-166).
    let fs2 := { fs1 with interfaces := cfg }
    let ev2 := ev1 ++ [Event.writeInterfaces cfg]
    -- Release DHCP first when switching to static (lines 172-173).
    let ev3 := ev2 ++ (if ipType = some "static" then [Event.run ["dhclient", "-r", iface]] else [])
    -- Restart networking, with ifdown/ifup fallback (lines 176-181).
    let r1 := rc ["service", "networking", "restart"]
    let ev4 := ev3 ++ [Event.run ["service", "networking", "restart"]]
    if r1.1 then ⟨true, "Network configuration applied successfully.", ev4, fs2⟩
    else
      let r2 := rc ["ifdown", iface]
      let ev5 := ev4 ++ [Event.run ["ifdown", iface]]
      if r2.1 then
        let r3 := rc ["ifup", iface]
        let ev6 := ev5 ++ [Event.run ["ifup", iface]]
        if r3.1 then ⟨true, "Network configuration applied successfully.", ev6, fs2⟩
        else legacyNetFail rc fs2 ev6 ("Failed to apply network configuration: " ++ r3.2)
      else legacyNetFail rc fs2 ev5 ("Failed to apply network configuration: " ++ r2.2)

/-! ### _configure_legacy_time_ubuntu16 (lines 199-282) -/

/-- Python `x or default` for an optional string field. -/
def pyOr (o : Option String) (d : String) : String :=
  if truthy o then pyGet o else d

/-- The `/etc/ntp.conf` content written for the legacy NTP mode
(lines 213-234). -/
def ntpConfContent (server : String) : String :=
  "# NTP configuration for Ubuntu 16.04\n" ++
  "driftfile /var/lib/ntp/ntp.drift\n" ++
  "statistics loopstats peerstats clockstats\n" ++
  "filegen loopstats file loopstats type day enable\n" ++
  "filegen peerstats file peerstats type day enable\n" ++
  "filegen clockstats file clockstats type day enable\n\n" ++
  "# Use specified NTP server or default\n" ++
  "server " ++ server ++ " iburst\n" ++
  "server 0.ubuntu.pool.ntp.org iburst\n" ++
  "server 1.ubuntu.pool.ntp.org iburst\n\n" ++
  "# Access control\n" ++
  "restrict -4 default kod notrap nomodify nopeer noquery limited\n" ++
  "restrict -6 default kod notrap nomodify nopeer noquery limited\n" ++
  "restrict 127.0.0.1\n" ++
  "restrict ::1\n\n" ++
  "# Local clock fallback\n" ++
  "server 127.127.1.0\n" ++
  "fudge 127.127.1.0 stratum 10\n"

/-- The `which systemctl` probe used by the conditional expressions. -/
def whichSystemctl : Cmd := ["which", "systemctl"]

/-- Outcome of the legacy time configurator. -/
structure LegacyTimeResult where
  success : Bool
  message : String
  events : List Event
deriving DecidableEq, Repr

/-- `_configure_legacy_time_ubuntu16`: NTP mode installs the daemon
package, stops the daemon, rewrites `/etc/ntp.conf`, starts the daemon
(fatal on failure) and forces one sync; manual mode validates the
timestamp, stops the daemon, sets the date (fatal on failure) and updates
the hardware clock.  Package install, daemon stop, forced sync and
hardware-clock steps are unchecked. -/
def _configure_legacy_time_ubuntu16 (rc : Exec)
    (timeType ntpServer manualDate manualTime : Option String) : LegacyTimeResult :=
  if timeType = some "ntp" then
    let server := pyOr ntpServer "pool.ntp.org"
    let ev0 := [Event.run ["apt-get", "update"], Event.run ["apt-get", "install", "-y", "ntpsec"]]
    let w1 := rc whichSystemctl
    let stopCmd := if w1.1 then ["systemctl", "stop", "ntp"] else ["service", "ntp", "stop"]
    let ev1 := ev0 ++ [Event.run whichSystemctl, Event.run stopCmd]
    let ev2 := ev1 ++ [Event.writeNtpConf (ntpConfContent server)]
    let w2 := rc whichSystemctl
    let startCmd := if w2.1 then ["systemctl", "start", "ntp"] else ["service", "ntp", "start"]
    let rStart := rc startCmd
    let ev3 := ev2 ++ [Event.run whichSystemctl, Event.run startCmd]
    if rStart.1 then
      ⟨true, "NTP synchronization enabled successfully.",
        ev3 ++ [Event.run ["ntpsec-ntpdate", "-s", server]]⟩
    else
      ⟨false, "Error applying time settings: Failed to start NTP service: " ++ rStart.2, ev3⟩
  else if timeType = some "manual" then
    if ¬ (truthy manualDate ∧ truthy manualTime) then
      ⟨false, "Error applying time settings: For manual time, manualDate and manualTime are required.", []⟩
    else if ¬ strptimeValid (pyGet manualDate ++ " " ++ pyGet manualTime) then
      ⟨false, "Error applying time settings: Invalid date or time format. Use YYYY-MM-DD and HH:MM.", []⟩
    else
      let w := rc whichSystemctl
      let stopCmd := if w.1 then ["systemctl", "stop", "ntp"] else ["service", "ntp", "stop"]
      let dateCmd := ["date", "-s", pyGet manualDate ++ " " ++ pyGet manualTime ++ ":00"]
      let rDate := rc dateCmd
      let ev := [Event.run whichSystemctl, Event.run stopCmd, Event.run dateCmd]
      if rDate.1 then
        ⟨true, "Manual time set successfully.", ev ++ [Event.run ["hwclock", "--systohc"]]⟩
      else
        ⟨false, "Error applying time settings: Failed to set manual time: " ++ rDate.2, ev⟩
  else
    ⟨false, "Error applying time settings: Invalid timeType: " ++ pyStr timeType ++
      ". Must be 'ntp' or 'manual'.", []⟩

/-! ### Request handlers (lines 379-574)

Each handler is a pure function of the request body, the host state
(`/sys/class/net` scan, `/etc/os-release` content, legacy file contents)
and the command oracle, returning the HTTP response, the event trace and
the resulting legacy file state. -/

/-- Result of the network handlers. -/
structure NetResponse where
  resp : HttpResponse
  events : List Event
  fs : LegacyFS
deriving DecidableEq, Repr

/-- The modern branch of `apply_network_settings` (lines 410-413 with the
surrounding success/ValueError mapping): build the netplan document and
apply it; a builder `ValueError` becomes a 400 with no side effect. -/
def modernNetworkBranch (rc : Exec) (fs0 : LegacyFS) (d : NetworkIntent)
    (iface : String) : NetResponse :=
  match _generate_netplan_yaml d.ipType d.ipAddress d.subnetMask d.gateway d.dnsServer iface with
  | .error e => ⟨err400 e, [], fs0⟩
  | .ok doc =>
    let wr := _write_and_apply_netplan rc doc
    ⟨if wr.1.1 then ok200 wr.1.2 else err500 wr.1.2, wr.2, fs0⟩

/-- `POST /apply_network_settings` (lines 379-426). -/
def apply_network_settings (rc : Exec) (sysIfaces : Option (List String))
    (osRelease : Option String) (fs0 : LegacyFS) (data : Option NetworkIntent) :
    NetResponse :=
  match data with
  | none => ⟨err400 "No JSON data provided.", [], fs0⟩
  | some d =>
    match _get_network_interface_name sysIfaces with
    | none => ⟨err500 "Could not detect network interface. Please configure manually.", [], fs0⟩
    | some iface =>
      -- `if not interface_name:` also treats an empty name as undetected.
      if iface = "" then
        ⟨err500 "Could not detect network interface. Please configure manually.", [], fs0⟩
      else if _get_ubuntu_version osRelease = "16.04" then
        let r := _configure_legacy_network_ubuntu16 rc fs0 d.ipType d.ipAddress
                   d.subnetMask d.gateway d.dnsServer iface
        ⟨if r.success then ok200 r.message else err500 r.message, r.events, r.fs⟩
      else
        modernNetworkBranch rc fs0 d iface

/-- The ordered best-effort command sequence of `disable_dhcp`
(lines 440-480). -/
def disableDhcpCmds (iface : String) : List Cmd :=
  [["dhclient", "-r", iface],
   ["systemctl", "stop", "NetworkManager"],
   ["systemctl", "disable", "NetworkManager"],
   ["systemctl", "stop", "isc-dhcp-client"],
   ["systemctl", "disable", "isc-dhcp-client"],
   ["pkill", "dhclient"]]

/-- `POST /disable_dhcp` (lines 428-487): every step's outcome is only
logged; once the interface is detected the handler always answers 200. -/
def disable_dhcp (_rc : Exec) (sysIfaces : Option (List String)) :
    HttpResponse × List Event :=
  match _get_network_interface_name sysIfaces with
  | none => (err500 "Could not detect network interface to disable DHCP.", [])
  | some iface =>
    -- `if not interface_name:` also treats an empty name as undetected.
    if iface = "" then (err500 "Could not detect network interface to disable DHCP.", [])
    else (ok200 "DHCP disabled successfully.", (disableDhcpCmds iface).map Event.run)

/-- The modern (timedatectl) branch of `apply_time_settings`
(lines 517-559). -/
def modernTimeBranch (rc : Exec) (d : TimeIntent) : HttpResponse × List Event :=
  if d.timeType = some "ntp" then
    let c1 : Cmd := ["timedatectl", "set-ntp", "false"]
    let r1 := rc c1
    if ¬ r1.1 then (err500 ("Failed to disable NTP: " ++ r1.2), [Event.run c1])
    else
      let c2 : Cmd := ["timedatectl", "set-ntp", "true"]
      let r2 := rc c2
      if ¬ r2.1 then (err500 ("Failed to enable NTP: " ++ r2.2), [Event.run c1, Event.run c2])
      else (ok200 "NTP synchronization enabled successfully.", [Event.run c1, Event.run c2])
  else if d.timeType = some "manual" then
    if ¬ (truthy d.manualDate ∧ truthy d.manualTime) then
      (err400 "For manual time, manualDate and manualTime are required.", [])
    else if ¬ strptimeValid (pyGet d.manualDate ++ " " ++ pyGet d.manualTime) then
      (err400 "Invalid date or time format. Use YYYY-MM-DD and HH:MM.", [])
    else
      let c1 : Cmd := ["timedatectl", "set-ntp", "false"]
      let r1 := rc c1
      if ¬ r1.1 then (err500 ("Failed to disable NTP: " ++ r1.2), [Event.run c1])
      else
        let c2 : Cmd := ["timedatectl", "set-time",
                         pyGet d.manualDate ++ " " ++ pyGet d.manualTime ++ ":00"]
        let r2 := rc c2
        if r2.1 then (ok200 "Manual time set successfully.", [Event.run c1, Event.run c2])
        else (err500 ("Failed to set manual time: " ++ r2.2), [Event.run c1, Event.run c2])
  else
    (err400 "Invalid timeType. Must be 'ntp' or 'manual'.", [])

/-- `POST /apply_time_settings` (lines 490-574). -/
def apply_time_settings (rc : Exec) (osRelease : Option String)
    (data : Option TimeIntent) : HttpResponse × List Event :=
  match data with
  | none => (err400 "No JSON data provided.", [])
  | some d =>
    if _get_ubuntu_version osRelease = "16.04" then
      let r := _configure_legacy_time_ubuntu16 rc d.timeType d.ntpServer d.manualDate d.manualTime
      (if r.success then ok200 r.message else err500 r.message, r.events)
    else
      modernTimeBranch rc d

/-! ### Concrete command oracles used to evaluate the theorems -/

/-- Oracle in which every command succeeds. -/
def rcOk : Exec := fun _ => (true, "")

/-- Oracle in which every command fails. -/
def rcFail : Exec := fun _ => (false, "step failed")

/-- Oracle failing only the primary networking restart. -/
def rcRestartFails : Exec := fun c =>
  if c = ["service", "networking", "restart"] then (false, "restart failed") else (true, "")

/-- Oracle failing the primary networking restart and the `ifup` fallback
on `eth0`. -/
def rcRestartAndIfupFail : Exec := fun c =>
  if c = ["service", "networking", "restart"] ∨ c = ["ifup", "eth0"] then
    (false, "apply failed")
  else (true, "")

/-- Oracle failing only `systemctl stop ntp`. -/
def rcStopNtpFails : Exec := fun c =>
  if c = ["systemctl", "stop", "ntp"] then (false, "stop failed") else (true, "")

/-- Oracle failing only the `timedatectl set-time` command for the sample
timestamp. -/
def rcSetTimeFails : Exec := fun c =>
  if c = ["timedatectl", "set-time", "2024-01-02 10:00:00"] then
    (false, "set failed")
  else (true, "")

/-! ## Claims -/

/-- C1: For every static configuration intent with non-empty address,
mask and gateway whose mask converts to a CIDR prefix length, the netplan
document built by `_generate_netplan_yaml` carries exactly one address
entry, the supplied address joined with the computed prefix length, and
exactly one default route via the supplied gateway. -/
theorem netplan_static_single_address_and_default_route
    (addr mask gw : String) (dns : Option String) (iface : String) (cidr : Nat)
    (ha : addr ≠ "") (hm : mask ≠ "") (hg : gw ≠ "") (hi : iface ≠ "")
    (hc : subnet_mask_to_cidr mask = some cidr) :
    ∃ doc,
      _generate_netplan_yaml (some "static") (some addr) (some mask) (some gw) dns iface =
        .ok doc
      ∧ doc.eth.addresses = some [addr ++ "/" ++ toString cidr]
      ∧ doc.eth.routes = some [⟨"default", gw⟩] := by
  refine ⟨⟨2, "networkd", iface,
    ⟨some false, some [addr ++ "/" ++ toString cidr], some [⟨"default", gw⟩],
     if truthy dns then some [pyGet dns] else none⟩⟩, ?_, rfl, rfl⟩
  unfold _generate_netplan_yaml
  simp +decide [truthy, pyGet, ha, hm, hg, hi, hc]

/-- Witness for C1 at the round-trip input of the spec: mask
`255.255.255.0` gives prefix 24, the addresses list is exactly
`["192.168.1.50/24"]` and the default route is via `192.168.1.1`. -/
theorem netplan_static_single_address_and_default_route_witness :
    subnet_mask_to_cidr "255.255.255.0" = some 24 ∧
    ∃ doc,
      _generate_netplan_yaml (some "static") (some "192.168.1.50")
          (some "255.255.255.0") (some "192.168.1.1") none "eth0" = .ok doc
      ∧ doc.eth.addresses = some ["192.168.1.50/24"]
      ∧ doc.eth.routes = some [⟨"default", "192.168.1.1"⟩] := by
  refine ⟨by decide, ?_⟩
  obtain ⟨doc, h1, h2, h3⟩ := netplan_static_single_address_and_default_route
    "192.168.1.50" "255.255.255.0" "192.168.1.1" none "eth0" 24
    (by decide) (by decide) (by decide) (by decide) (by decide)
  refine ⟨doc, h1, ?_, h3⟩
  rw [h2]
  rfl

/-- C2: Once interface detection succeeds, `disable_dhcp` reports overall
success (HTTP 200, `"DHCP disabled successfully."`), runs the full
six-step teardown sequence, and its answer is identical under every
command oracle — no step failure aborts the sequence or changes the
reported result. -/
theorem disable_dhcp_always_reports_success
    (rc rc2 : Exec) (ifs : Option (List String)) (iface : String)
    (h : _get_network_interface_name ifs = some iface) (hi : iface ≠ "") :
    (disable_dhcp rc ifs).1 = ok200 "DHCP disabled successfully."
    ∧ (disable_dhcp rc ifs).2 = (disableDhcpCmds iface).map Event.run
    ∧ disable_dhcp rc ifs = disable_dhcp rc2 ifs := by
  unfold disable_dhcp
  rw [h]
  simp [hi]

/-- Witness for C2: with `eth0` detected and every individual step
failing, the teardown still answers 200 success. -/
theorem disable_dhcp_always_reports_success_witness :
    _get_network_interface_name (some ["eth0"]) = some "eth0"
    ∧ (disable_dhcp rcFail (some ["eth0"])).1 = ok200 "DHCP disabled successfully." := by
  refine ⟨by decide, ?_⟩
  exact (disable_dhcp_always_reports_success rcFail rcOk (some ["eth0"]) "eth0"
    (by decide) (by decide)).1

/-- C3: In the legacy dialect, if the primary `service networking restart`
fails and the `ifdown`/`ifup` fallback succeeds, the operation reports
success; if both apply paths fail (and the backup and restore copies go
through), the interfaces file is restored to its original content and the
operation reports failure. -/
theorem legacy_network_fallback_and_rollback
    (rc : Exec) (fs0 : LegacyFS) (addr mask gw : String) (dns : Option String)
    (iface : String)
    (ha : addr ≠ "") (hm : mask ≠ "") (hg : gw ≠ "")
    (hRestart : (rc ["service", "networking", "restart"]).1 = false) :
    ((rc ["ifdown", iface]).1 = true → (rc ["ifup", iface]).1 = true →
      (_configure_legacy_network_ubuntu16 rc fs0 (some "static") (some addr)
        (some mask) (some gw) dns iface).success = true)
    ∧ (((rc ["ifdown", iface]).1 = false ∨
        ((rc ["ifdown", iface]).1 = true ∧ (rc ["ifup", iface]).1 = false)) →
      (rc (cpCmd interfacesFile backupFile)).1 = true →
      (rc (cpCmd backupFile interfacesFile)).1 = true →
      (_configure_legacy_network_ubuntu16 rc fs0 (some "static") (some addr)
        (some mask) (some gw) dns iface).success = false
      ∧ (_configure_legacy_network_ubuntu16 rc fs0 (some "static") (some addr)
        (some mask) (some gw) dns iface).fs.interfaces = fs0.interfaces) := by
  constructor
  · intro hdown hup
    unfold _configure_legacy_network_ubuntu16
    simp +decide [truthy, bne_iff_ne, ha, hm, hg, hRestart, hdown, hup]
  · rintro (hdown | ⟨hdown, hup⟩) hB hR
    · unfold _configure_legacy_network_ubuntu16 legacyNetFail
      simp +decide [truthy, bne_iff_ne, ha, hm, hg, hRestart, hdown, hB, hR]
    · unfold _configure_legacy_network_ubuntu16 legacyNetFail
      simp +decide [truthy, bne_iff_ne, ha, hm, hg, hRestart, hdown, hup, hB, hR]

/-- Witness for C3: with the restart failing and the fallback succeeding
the operation reports success, and with restart and `ifup` both failing
the interfaces file returns to its original content and the operation
reports failure. -/
theorem legacy_network_fallback_and_rollback_witness :
    ((_configure_legacy_network_ubuntu16 rcRestartFails ⟨"orig", none⟩ (some "static")
        (some "10.0.0.2") (some "255.255.255.0") (some "10.0.0.1") none "eth0").success = true)
    ∧ ((_configure_legacy_network_ubuntu16 rcRestartAndIfupFail ⟨"orig", none⟩ (some "static")
        (some "10.0.0.2") (some "255.255.255.0") (some "10.0.0.1") none "eth0").success = false
      ∧ (_configure_legacy_network_ubuntu16 rcRestartAndIfupFail ⟨"orig", none⟩ (some "static")
        (some "10.0.0.2") (some "255.255.255.0") (some "10.0.0.1") none "eth0").fs.interfaces = "orig") := by
  constructor
  · exact (legacy_network_fallback_and_rollback rcRestartFails ⟨"orig", none⟩
      "10.0.0.2" "255.255.255.0" "10.0.0.1" none "eth0"
      (by decide) (by decide) (by decide) (by decide)).1 (by decide) (by decide)
  · exact (legacy_network_fallback_and_rollback rcRestartAndIfupFail ⟨"orig", none⟩
      "10.0.0.2" "255.255.255.0" "10.0.0.1" none "eth0"
      (by decide) (by decide) (by decide) (by decide)).2
      (Or.inr ⟨by decide, by decide⟩) (by decide) (by decide)

set_option maxRecDepth 4000 in
/-- C4 counterexample: the claim fails in the legacy dialect.  For the
static intent with address `10.0.0.2`, mask `255.0.255.0` (which fails
CIDR conversion) and gateway `10.0.0.1`, the legacy configurator does not
reject at all: it writes the interfaces file, issues commands, and even
reports success. -/
theorem static_invalid_mask_legacy_not_rejected :
    subnet_mask_to_cidr "255.0.255.0" = none
    ∧ (apply_network_settings rcOk (some ["eth0"]) (some "VERSION_ID=\"16.04\"")
        ⟨"orig", none⟩
        (some ⟨some "static", some "10.0.0.2", some "255.0.255.0", some "10.0.0.1", none⟩)).resp.status
        = "success"
    ∧ (apply_network_settings rcOk (some ["eth0"]) (some "VERSION_ID=\"16.04\"")
        ⟨"orig", none⟩
        (some ⟨some "static", some "10.0.0.2", some "255.0.255.0", some "10.0.0.1", none⟩)).events.contains
        (Event.writeInterfaces (staticInterfacesConfig "eth0" "10.0.0.2" "255.0.255.0" "10.0.0.1" none))
        = true := by
  exact ⟨by decide, by decide, by decide⟩

/-- C4 (amended): for a static intent with a detected non-empty interface:
in the modern dialect, a missing address/mask/gateway or an unconvertible
subnet mask is rejected with a 400 before any file write and before any
command invocation (empty event trace, files untouched); in the legacy
dialect, a missing required field aborts before the interfaces file is
written, but the error handler still issues a single backup-restore copy
command (and an unconvertible mask is not rejected there at all, per the
counterexample). -/
theorem static_invalid_intent_rejection_amended
    (rc : Exec) (os : Option String) (ifs : Option (List String)) (iface : String)
    (fs0 : LegacyFS) (ia im ig idns : Option String)
    (hdet : _get_network_interface_name ifs = some iface) (hi : iface ≠ "")
    (hbad : ¬ (truthy ia ∧ truthy im ∧ truthy ig) ∨ subnet_mask_to_cidr (pyGet im) = none) :
    (_get_ubuntu_version os ≠ "16.04" →
      (apply_network_settings rc ifs os fs0 (some ⟨some "static", ia, im, ig, idns⟩)).resp.code = 400
      ∧ (apply_network_settings rc ifs os fs0 (some ⟨some "static", ia, im, ig, idns⟩)).events = []
      ∧ (apply_network_settings rc ifs os fs0 (some ⟨some "static", ia, im, ig, idns⟩)).fs = fs0)
    ∧ (_get_ubuntu_version os = "16.04" → ¬ (truthy ia ∧ truthy im ∧ truthy ig) →
      (apply_network_settings rc ifs os fs0 (some ⟨some "static", ia, im, ig, idns⟩)).resp.code = 500
      ∧ (apply_network_settings rc ifs os fs0 (some ⟨some "static", ia, im, ig, idns⟩)).events
          = [Event.run (cpCmd backupFile interfacesFile)]) := by
  constructor
  · intro hmod
    unfold apply_network_settings modernNetworkBranch _generate_netplan_yaml
    rw [hdet]
    rcases hbad with hfields | hmask
    · simp +decide [hi, hmod, hfields]
    · by_cases hfields : truthy ia ∧ truthy im ∧ truthy ig
      · simp +decide [hi, hmod, hfields, hmask]
      · simp +decide [hi, hmod, hfields]
  · intro hleg hfields
    unfold apply_network_settings _configure_legacy_network_ubuntu16 legacyNetFail
    rw [hdet]
    simp +decide [hi, hleg, hfields]

/-- Witness for C4 (amended): a modern host rejects the unconvertible mask
`255.0.255.0` with a 400 and an empty trace, and a legacy host rejects a
static intent missing its gateway with only the restore copy command in
the trace. -/
theorem static_invalid_intent_rejection_amended_witness :
    ((apply_network_settings rcOk (some ["eth0"]) (some "VERSION_ID=\"22.04\"")
        ⟨"orig", none⟩
        (some ⟨some "static", some "10.0.0.2", some "255.0.255.0", some "10.0.0.1", none⟩)).resp.code = 400
      ∧ (apply_network_settings rcOk (some ["eth0"]) (some "VERSION_ID=\"22.04\"")
        ⟨"orig", none⟩
        (some ⟨some "static", some "10.0.0.2", some "255.0.255.0", some "10.0.0.1", none⟩)).events = []
      ∧ (apply_network_settings rcOk (some ["eth0"]) (some "VERSION_ID=\"22.04\"")
        ⟨"orig", none⟩
        (some ⟨some "static", some "10.0.0.2", some "255.0.255.0", some "10.0.0.1", none⟩)).fs
          = ⟨"orig", none⟩)
    ∧ ((apply_network_settings rcOk (some ["eth0"]) (some "VERSION_ID=\"16.04\"")
        ⟨"orig", none⟩
        (some ⟨some "static", some "10.0.0.2", some "255.255.255.0", none, none⟩)).resp.code = 500
      ∧ (apply_network_settings rcOk (some ["eth0"]) (some "VERSION_ID=\"16.04\"")
        ⟨"orig", none⟩
        (some ⟨some "static", some "10.0.0.2", some "255.255.255.0", none, none⟩)).events
          = [Event.run (cpCmd backupFile interfacesFile)]) := by
  constructor
  · exact (static_invalid_intent_rejection_amended rcOk (some "VERSION_ID=\"22.04\"")
      (some ["eth0"]) "eth0" ⟨"orig", none⟩
      (some "10.0.0.2") (some "255.0.255.0") (some "10.0.0.1") none
      (by decide) (by decide) (Or.inr (by decide))).1 (by decide)
  · exact (static_invalid_intent_rejection_amended rcOk (some "VERSION_ID=\"16.04\"")
      (some ["eth0"]) "eth0" ⟨"orig", none⟩
      (some "10.0.0.2") (some "255.255.255.0") none none
      (by decide) (by decide) (Or.inl (by decide))).2 (by decide) (by decide)

/-- C5 counterexample: with only the daemon-stop step
(`systemctl stop ntp`) failing and every other command succeeding, the
legacy NTP time configuration still reports success — contrary to the
claim that a stop failure causes the operation to report failure. -/
theorem legacy_time_stop_failure_not_fatal :
    (rcStopNtpFails ["systemctl", "stop", "ntp"]).1 = false
    ∧ (_configure_legacy_time_ubuntu16 rcStopNtpFails (some "ntp") none none none).success
        = true := by
  exact ⟨by decide, by decide⟩

/-- C5 (amended): in the legacy time configurator the result is exactly
the outcome of the daemon-start step (NTP mode) respectively the final
time-apply step (manual mode); failures of the package-install, forced
one-shot sync, daemon-stop and hardware-clock steps never change the
result. -/
theorem legacy_time_fatal_steps_amended (rc : Exec) (server date time : Option String) :
    ((_configure_legacy_time_ubuntu16 rc (some "ntp") server date time).success =
      (rc (if (rc whichSystemctl).1 then ["systemctl", "start", "ntp"]
           else ["service", "ntp", "start"])).1)
    ∧ (truthy date = true → truthy time = true →
      strptimeValid (pyGet date ++ " " ++ pyGet time) = true →
      (_configure_legacy_time_ubuntu16 rc (some "manual") server date time).success =
        (rc ["date", "-s", pyGet date ++ " " ++ pyGet time ++ ":00"]).1) := by
  constructor
  · unfold _configure_legacy_time_ubuntu16
    by_cases hw : (rc whichSystemctl).1
    · by_cases hs : (rc ["systemctl", "start", "ntp"]).1 <;> simp +decide [hw, hs]
    · by_cases hs : (rc ["service", "ntp", "start"]).1 <;>
        simp +decide [eq_false_of_ne_true hw, hs]
  · intro hd ht hv
    unfold _configure_legacy_time_ubuntu16
    by_cases hs : (rc ["date", "-s", pyGet date ++ " " ++ pyGet time ++ ":00"]).1 <;>
      simp +decide [hd, ht, hv, hs]

/-- Witness for C5 (amended): when every command fails the NTP mode fails
with it, and when every command succeeds a valid manual set succeeds. -/
theorem legacy_time_fatal_steps_amended_witness :
    (_configure_legacy_time_ubuntu16 rcFail (some "ntp") none none none).success = false
    ∧ (_configure_legacy_time_ubuntu16 rcOk (some "manual") none
        (some "2024-01-02") (some "10:00")).success = true := by
  constructor
  · have h := (legacy_time_fatal_steps_amended rcFail none none none).1
    rw [h]; decide
  · have h := (legacy_time_fatal_steps_amended rcOk none (some "2024-01-02")
      (some "10:00")).2 (by decide) (by decide) (by decide)
    rw [h]; decide

/-- C6: For every manual time intent with both fields present whose
(date, time) pair does not parse as a valid `%Y-%m-%d %H:%M` timestamp,
`apply_time_settings` answers an error whose message names the format
problem, with an empty event trace — no system command is executed — in
both the legacy and the modern dialect (the host release content is
universally quantified). -/
theorem manual_time_invalid_format_rejected
    (rc : Exec) (os : Option String) (server date time : Option String)
    (hd : truthy date = true) (ht : truthy time = true)
    (hbad : strptimeValid (pyGet date ++ " " ++ pyGet time) = false) :
    (apply_time_settings rc os (some ⟨some "manual", server, date, time⟩)).1.status = "error"
    ∧ containsStr (apply_time_settings rc os (some ⟨some "manual", server, date, time⟩)).1.message
        "Invalid date or time format" = true
    ∧ (apply_time_settings rc os (some ⟨some "manual", server, date, time⟩)).2 = [] := by
  unfold apply_time_settings
  by_cases hv : _get_ubuntu_version os = "16.04"
  · unfold _configure_legacy_time_ubuntu16
    simp +decide [hv, hd, ht, hbad]
  · unfold modernTimeBranch
    simp +decide [hv, hd, ht, hbad]

/-- Witness for C6 at the spec's example `("2024-13-01", "10:00")`
(invalid month), on a legacy host and on a modern host. -/
theorem manual_time_invalid_format_rejected_witness :
    ((apply_time_settings rcOk (some "VERSION_ID=\"16.04\"")
        (some ⟨some "manual", none, some "2024-13-01", some "10:00"⟩)).1.status = "error"
      ∧ (apply_time_settings rcOk (some "VERSION_ID=\"16.04\"")
        (some ⟨some "manual", none, some "2024-13-01", some "10:00"⟩)).2 = [])
    ∧ ((apply_time_settings rcOk (some "VERSION_ID=\"22.04\"")
        (some ⟨some "manual", none, some "2024-13-01", some "10:00"⟩)).1.status = "error"
      ∧ (apply_time_settings rcOk (some "VERSION_ID=\"22.04\"")
        (some ⟨some "manual", none, some "2024-13-01", some "10:00"⟩)).2 = []) := by
  constructor
  · have h := manual_time_invalid_format_rejected rcOk (some "VERSION_ID=\"16.04\"")
      none (some "2024-13-01") (some "10:00") (by decide) (by decide) (by decide)
    exact ⟨h.1, h.2.2⟩
  · have h := manual_time_invalid_format_rejected rcOk (some "VERSION_ID=\"22.04\"")
      none (some "2024-13-01") (some "10:00") (by decide) (by decide) (by decide)
    exact ⟨h.1, h.2.2⟩

/-- C7: `_get_ubuntu_version` classifies the host release text by a fixed
version-string match — it answers `"16.04"` (the legacy dialect) exactly
when the text contains `VERSION_ID="16.04"` — a read failure yields
`"modern"`, and whenever the answer is not `"16.04"` both handlers take
the modern (netplan / timedatectl) branch. -/
theorem version_detection_and_modern_default
    (content : String) (rc : Exec) (ifs : Option (List String)) (os : Option String)
    (fs0 : LegacyFS) (d : NetworkIntent) (t : TimeIntent) (iface : String) :
    (_get_ubuntu_version (some content) = "16.04" ↔ containsStr content legacyTag = true)
    ∧ _get_ubuntu_version none = "modern"
    ∧ (_get_ubuntu_version os ≠ "16.04" → _get_network_interface_name ifs = some iface →
        iface ≠ "" →
        apply_network_settings rc ifs os fs0 (some d) = modernNetworkBranch rc fs0 d iface)
    ∧ (_get_ubuntu_version os ≠ "16.04" →
        apply_time_settings rc os (some t) = modernTimeBranch rc t) := by
  refine ⟨?_, rfl, ?_, ?_⟩
  · unfold _get_ubuntu_version
    by_cases h : containsStr content legacyTag
    · simp [h]
    · by_cases h2 : containsStr content bionicTag <;>
        simp +decide [eq_false_of_ne_true h, h2]
  · intro hmod hdet hi
    unfold apply_network_settings
    rw [hdet]
    simp [hi, hmod]
  · intro hmod
    unfold apply_time_settings
    simp [hmod]

/-- Witness for C7: a 20.04 release text is classified modern and the
network handler takes the netplan branch for it. -/
theorem version_detection_and_modern_default_witness :
    (¬ _get_ubuntu_version (some "VERSION_ID=\"20.04\"") = "16.04"
      ↔ ¬ containsStr "VERSION_ID=\"20.04\"" legacyTag = true)
    ∧ apply_network_settings rcOk (some ["eth0"]) (some "VERSION_ID=\"20.04\"")
        ⟨"orig", none⟩ (some ⟨some "dynamic", none, none, none, none⟩)
      = modernNetworkBranch rcOk ⟨"orig", none⟩ ⟨some "dynamic", none, none, none, none⟩ "eth0" := by
  have h := version_detection_and_modern_default "VERSION_ID=\"20.04\"" rcOk
    (some ["eth0"]) (some "VERSION_ID=\"20.04\"") ⟨"orig", none⟩
    ⟨some "dynamic", none, none, none, none⟩ ⟨none, none, none, none⟩ "eth0"
  exact ⟨not_congr h.1, h.2.2.1 (by decide) (by decide) (by decide)⟩

/-- C8: In mock mode, a command whose (sudo-stripped) name is in the fixed
allow-list {timedatectl, netplan, dhclient, systemctl, pkill} succeeds
without real execution — with the dedicated "DHCP release successful"
message for a `dhclient` invocation carrying `-r`, and the generic mock
text otherwise — while a command outside the allow-list is executed for
real even in mock mode. -/
theorem run_command_mock_mode_behavior
    (realExec : Exec) (c : Cmd) (name : String) (rest : List String)
    (h : stripSudo c = name :: rest) :
    (name ∈ mockAllowList →
      ((name = "dhclient" ∧ "-r" ∈ name :: rest →
        run_command true realExec c = ⟨true, "Mocked: DHCP release successful.", false⟩)
      ∧ (¬ (name = "dhclient" ∧ "-r" ∈ name :: rest) →
        run_command true realExec c = ⟨true, mockMsg (name :: rest), false⟩)))
    ∧ (name ∉ mockAllowList →
      run_command true realExec c =
        ⟨(realExec (name :: rest)).1, (realExec (name :: rest)).2, true⟩) := by
  unfold run_command
  rw [h]
  refine ⟨fun hin => ⟨fun hr => ?_, fun hr => ?_⟩, fun hout => ?_⟩
  · obtain ⟨h1, h2⟩ := hr
    subst h1
    simp only [List.mem_cons] at h2
    rcases h2 with h2 | h2
    · exact absurd h2 (by decide)
    · simp +decide [h2]
  · simp only [List.mem_cons, not_and, not_or] at hr
    simp [hin]
    intro h1 h2
    rcases hr h1 with ⟨h3, h4⟩
    rcases h2 with h2 | h2
    · exact absurd h2 h3
    · exact absurd h2 h4
  · simp [hout]

/-- Witness for C8: under mock mode `sudo dhclient -r eth0` yields the
explicit lease-released message, `dhclient eth0` yields the generic mock
text, and `cp a b` (outside the allow-list) is executed for real. -/
theorem run_command_mock_mode_behavior_witness :
    run_command true rcOk ["sudo", "dhclient", "-r", "eth0"]
      = ⟨true, "Mocked: DHCP release successful.", false⟩
    ∧ run_command true rcOk ["dhclient", "eth0"]
      = ⟨true, mockMsg ["dhclient", "eth0"], false⟩
    ∧ run_command true rcOk ["cp", "a", "b"] = ⟨true, "", true⟩ := by
  refine ⟨?_, ?_, ?_⟩
  · exact ((run_command_mock_mode_behavior rcOk ["sudo", "dhclient", "-r", "eth0"]
      "dhclient" ["-r", "eth0"] (by decide)).1 (by decide)).1 (by decide)
  · exact ((run_command_mock_mode_behavior rcOk ["dhclient", "eth0"]
      "dhclient" ["eth0"] (by decide)).1 (by decide)).2 (by decide)
  · exact ((run_command_mock_mode_behavior rcOk ["cp", "a", "b"]
      "cp" ["a", "b"] (by decide)).2 (by decide)).trans (by decide)

/-- C9: Interface discovery returns the first scanned adapter whose name
marks it as wired (prefix `eth` or `enp`) when one exists, otherwise the
first adapter, and no interface when the scan fails or finds nothing; in
that last case both network operations answer a 500 server fault with an
empty event trace — no configurator is invoked. -/
theorem interface_discovery_preference_and_hard_failure
    (l : List String) (w : String) (rc rc2 : Exec) (os : Option String)
    (fs0 : LegacyFS) (d : NetworkIntent) :
    (l.find? isWired = some w → _get_network_interface_name (some l) = some w)
    ∧ (l.find? isWired = none → _get_network_interface_name (some l) = l.head?)
    ∧ _get_network_interface_name none = none
    ∧ _get_network_interface_name (some []) = none
    ∧ (∀ ifs, _get_network_interface_name ifs = none →
        (apply_network_settings rc ifs os fs0 (some d)).resp.code = 500
        ∧ (apply_network_settings rc ifs os fs0 (some d)).events = []
        ∧ (apply_network_settings rc ifs os fs0 (some d)).fs = fs0
        ∧ (disable_dhcp rc2 ifs).1.code = 500
        ∧ (disable_dhcp rc2 ifs).2 = []) := by
  refine ⟨?_, ?_, rfl, rfl, ?_⟩
  · intro hf
    simp [_get_network_interface_name, hf]
  · intro hf
    simp [_get_network_interface_name, hf]
  · intro ifs hnone
    have h1 : (apply_network_settings rc ifs os fs0 (some d)) =
        ⟨err500 "Could not detect network interface. Please configure manually.", [], fs0⟩ := by
      unfold apply_network_settings
      rw [hnone]
    have h2 : disable_dhcp rc2 ifs =
        (err500 "Could not detect network interface to disable DHCP.", []) := by
      unfold disable_dhcp
      rw [hnone]
    rw [h1, h2]
    exact ⟨rfl, rfl, rfl, rfl, rfl⟩

/-- Witness for C9: in the scan `["lo", "eth0", "wlan0"]` the wired
`eth0` is chosen over the earlier `lo`; an empty scan yields no interface
and both operations answer 500 with no side effect. -/
theorem interface_discovery_preference_and_hard_failure_witness :
    (List.find? isWired ["lo", "eth0", "wlan0"] = some "eth0"
      ∧ _get_network_interface_name (some ["lo", "eth0", "wlan0"]) = some "eth0")
    ∧ ((apply_network_settings rcOk (some []) none ⟨"orig", none⟩
          (some ⟨some "dynamic", none, none, none, none⟩)).resp.code = 500
      ∧ (apply_network_settings rcOk (some []) none ⟨"orig", none⟩
          (some ⟨some "dynamic", none, none, none, none⟩)).events = []
      ∧ (disable_dhcp rcOk (some [])).1.code = 500
      ∧ (disable_dhcp rcOk (some [])).2 = []) := by
  have h := interface_discovery_preference_and_hard_failure
    ["lo", "eth0", "wlan0"] "eth0" rcOk rcOk none ⟨"orig", none⟩
    ⟨some "dynamic", none, none, none, none⟩
  have h5 := h.2.2.2.2 (some []) (by decide)
  exact ⟨⟨by decide, h.1 (by decide)⟩, h5.1, h5.2.1, h5.2.2.2.1, h5.2.2.2.2⟩

/-- C10: In the modern dialect, manual time setting always issues the
NTP-sync-disable command before the set-time command (the trace is exactly
those two commands, in that order, whatever the set-time outcome), and a
set-time failure makes the operation report failure with no compensating
command — NTP synchronization is left disabled. -/
theorem modern_manual_time_not_atomic
    (rc : Exec) (os : Option String) (server : Option String) (date time : String)
    (hmod : _get_ubuntu_version os ≠ "16.04")
    (hd : date ≠ "") (ht : time ≠ "")
    (hvalid : strptimeValid (date ++ " " ++ time) = true)
    (hdis : (rc ["timedatectl", "set-ntp", "false"]).1 = true) :
    ((rc ["timedatectl", "set-time", date ++ " " ++ time ++ ":00"]).1 = false →
      (apply_time_settings rc os (some ⟨some "manual", server, some date, some time⟩)).1.status
        = "error"
      ∧ (apply_time_settings rc os (some ⟨some "manual", server, some date, some time⟩)).2
        = [Event.run ["timedatectl", "set-ntp", "false"],
           Event.run ["timedatectl", "set-time", date ++ " " ++ time ++ ":00"]])
    ∧ ((rc ["timedatectl", "set-time", date ++ " " ++ time ++ ":00"]).1 = true →
      (apply_time_settings rc os (some ⟨some "manual", server, some date, some time⟩)).1.status
        = "success"
      ∧ (apply_time_settings rc os (some ⟨some "manual", server, some date, some time⟩)).2
        = [Event.run ["timedatectl", "set-ntp", "false"],
           Event.run ["timedatectl", "set-time", date ++ " " ++ time ++ ":00"]]) := by
  constructor
  · intro hset
    unfold apply_time_settings modernTimeBranch
    simp +decide [hmod, truthy, bne_iff_ne, pyGet, hd, ht, hvalid, hdis, hset, err500, ok200]
  · intro hset
    unfold apply_time_settings modernTimeBranch
    simp +decide [hmod, truthy, bne_iff_ne, pyGet, hd, ht, hvalid, hdis, hset, err500, ok200]

/-- Witness for C10: on a modern host with `set-time` failing for
`2024-01-02 10:00:00`, the handler reports an error and the trace is the
sync-disable followed by the failed set-time, with no compensating
command. -/
theorem modern_manual_time_not_atomic_witness :
    (apply_time_settings rcSetTimeFails (some "VERSION_ID=\"22.04\"")
      (some ⟨some "manual", none, some "2024-01-02", some "10:00"⟩)).1.status = "error"
    ∧ (apply_time_settings rcSetTimeFails (some "VERSION_ID=\"22.04\"")
      (some ⟨some "manual", none, some "2024-01-02", some "10:00"⟩)).2
      = [Event.run ["timedatectl", "set-ntp", "false"],
         Event.run ["timedatectl", "set-time", "2024-01-02 10:00:00"]] := by
  have h := (modern_manual_time_not_atomic rcSetTimeFails (some "VERSION_ID=\"22.04\"")
    none "2024-01-02" "10:00" (by decide) (by decide) (by decide) (by decide)
    (by decide)).1 (by decide)
  exact ⟨h.1, h.2.trans (by decide)⟩

end BellNews
